import Mathlib

/-!
Verification development for the API gateway repository.

The definitions below are a shallow embedding of the gateway's request
pipeline: the Starlette middleware registration in `src/main.py`, the rate
limiting middleware in `src/core/rate_limit.py`, the JWT authentication
middleware and token issuance in `src/core/auth.py`, the request logging
middleware in `src/core/logging.py`, and the reverse proxy handler in
`src/core/routing.py`.

Modelling conventions:
* timestamps (`time.time()` values, seconds) are rationals; JWT timestamps
  (whole unix seconds, as used by the jose library) are integers;
* Python dictionaries keyed by strings are association lists where lookup
  returns the first matching entry; assignment conses a fresh entry in front
  (observationally equal to dict assignment for lookups);
* behaviour of external libraries (Starlette, httpx, jose) is modelled at
  their interfaces, as documented on each definition;
* randomness (uuid4) and the environment-configurable limits are passed in
  as explicit parameters.
-/

namespace ApiGateway

/-- A decoded JSON value, as produced by `response.json()` or carried in a
JSON response body. -/
inductive Jval where
  | null
  | bool (b : Bool)
  | num (n : Int)
  | str (s : String)
  | arr (xs : List Jval)
  | obj (fields : List (String × Jval))

/-- Body of a gateway response: `detail s` is the JSON object with a single
"detail" field that `JSONResponse(content=...)` and `HTTPException(detail=...)`
produce; `json v` is a handler returning decoded JSON data; `text s` is a
handler returning a plain string. -/
inductive Body where
  | detail (s : String)
  | json (v : Jval)
  | text (s : String)

/-- An HTTP response as seen at the gateway boundary. -/
structure Resp where
  status : Nat
  body : Body
  headers : List (String × String)

/-- An inbound HTTP request. `clientHost` is `request.client.host` ("" when the
transport peer is unavailable, matching a falsy value in Python). -/
structure Req where
  method : String
  path : String
  query : List (String × String)
  headers : List (String × String)
  body : String
  clientHost : String

/-- Python `s.startswith(p)`: `p` is a character-level prefix of `s`. -/
def pyStartsWith (s p : String) : Bool :=
  p.data.isPrefixOf s.data

/-- ASCII lower-casing of one character. The source only lower-cases ASCII
data (header names and the "Bearer" scheme), for which Python `str.lower()`
agrees with this. -/
def asciiLowerChar (c : Char) : Char :=
  if 'A' ≤ c && c ≤ 'Z' then Char.ofNat (c.toNat + 32) else c

/-- Python `s.lower()` on ASCII data. -/
def pyLower (s : String) : String :=
  ⟨s.data.map asciiLowerChar⟩

/-- Helper for `pySplit`: split a character list on whitespace runs,
accumulating the current (reversed) fragment. -/
def splitWsAux : List Char → List Char → List (List Char)
  | [], cur => if cur = [] then [] else [cur.reverse]
  | c :: rest, cur =>
      if c.isWhitespace then
        if cur = [] then splitWsAux rest [] else cur.reverse :: splitWsAux rest []
      else
        splitWsAux rest (c :: cur)

/-- Helper for `pySplitOn`: split a character list at every occurrence of a
separator character, keeping empty fragments. -/
def splitSepAux (sep : Char) : List Char → List Char → List (List Char)
  | [], cur => [cur.reverse]
  | c :: rest, cur =>
      if c = sep then cur.reverse :: splitSepAux sep rest []
      else splitSepAux sep rest (c :: cur)

/-- Python `s.split(sep)` for a one-character separator: fragments between
occurrences, empty fragments kept. -/
def pySplitOn (s : String) (sep : Char) : List String :=
  (splitSepAux sep s.data []).map (fun cs => ⟨cs⟩)

/-- Python `s.strip()`: drop leading and trailing whitespace. -/
def pyStrip (s : String) : String :=
  ⟨(((s.data.dropWhile Char.isWhitespace).reverse.dropWhile Char.isWhitespace).reverse)⟩

/-- Starlette header lookup: case-insensitive on the header name, returning the
first matching header's value (`request.headers.get(name)`). -/
def headerGet (hs : List (String × String)) (name : String) : Option String :=
  (hs.find? (fun p => pyLower p.1 = pyLower name)).map (fun p => p.2)

/-- Starlette `response.headers[name] = value`: the new entry shadows any
previous one for lookups. -/
def setRespHeader (r : Resp) (name value : String) : Resp :=
  { r with headers := (name, value) :: r.headers }

/-- Python `str.split()` with no separator: split on runs of whitespace,
dropping empty fragments. -/
def pySplit (s : String) : List String :=
  (splitWsAux s.data []).map (fun cs => ⟨cs⟩)

/-- Python `int()` applied to a float/rational: truncation toward zero. -/
def pyInt (q : ℚ) : ℤ :=
  if 0 ≤ q then ⌊q⌋ else ⌈q⌉

theorem pyInt_eq_floor (q : ℚ) (h : 0 ≤ q) : pyInt q = ⌊q⌋ := by
  rw [pyInt, if_pos h]

/-! ### Configuration defaults (environment-overridable in the source) -/

/-- Default of `RATE_LIMIT = int(os.getenv("RATE_LIMIT", "5"))`. -/
def RATE_LIMIT : Nat := 5

/-- Default of `TIME_WINDOW = int(os.getenv("TIME_WINDOW", "60"))`. -/
def TIME_WINDOW : ℚ := 60

/-- Default of `SECRET_KEY = os.getenv("JWT_SECRET", "supersecretjwtkey")`. -/
def SECRET_KEY : String := "supersecretjwtkey"

/-- The fixed backend base URL in `src/core/routing.py`. -/
def BACKEND_SERVICE : String := "http://localhost:9000"

/-- The bounded timeout on the upstream call:
`httpx.AsyncClient(timeout=30.0)`. -/
def upstreamTimeout : ℚ := 30

/-! ### Client IP resolution

Shared utility (`RateLimitMiddleware.get_client_ip` and
`RequestLoggingMiddleware.get_client_ip` are behaviourally identical):
prefer the first comma-separated entry of `X-Forwarded-For`, then
`X-Real-IP`, then the transport peer, else "unknown". -/

def getClientIp (req : Req) : String :=
  match headerGet req.headers "X-Forwarded-For" with
  | some ff =>
      if ff ≠ "" then pyStrip ((pySplitOn ff ',').headD "")
      else match headerGet req.headers "X-Real-IP" with
           | some ri => if ri ≠ "" then ri
                        else if req.clientHost = "" then "unknown" else req.clientHost
           | none => if req.clientHost = "" then "unknown" else req.clientHost
  | none =>
      match headerGet req.headers "X-Real-IP" with
      | some ri => if ri ≠ "" then ri
                   else if req.clientHost = "" then "unknown" else req.clientHost
      | none => if req.clientHost = "" then "unknown" else req.clientHost

/-! ### Rate limiting (`src/core/rate_limit.py`) -/

/-- One entry of `requests_store`: `record = {"count": c, "time": t}`. -/
structure RateRecord where
  count : Nat
  time : ℚ
deriving DecidableEq

/-- The process-wide `requests_store` dictionary, keyed by client IP. -/
abbrev Store := List (String × RateRecord)

/-- Python `requests_store.get(ip)`: first matching entry. -/
def storeGet (s : Store) (ip : String) : Option RateRecord :=
  (s.find? (fun p => p.1 = ip)).map (fun p => p.2)

/-- Python `requests_store[ip] = record`. Modelled by consing the new
binding in front: since `storeGet` returns the first match, this is
observationally equal to dict assignment — the binding for `ip` is replaced
and every other key's binding is unchanged. -/
def storeSet (s : Store) (ip : String) (r : RateRecord) : Store :=
  (ip, r) :: s

/-- Core of `RateLimitMiddleware.dispatch` for one request from `ip` at time
`now`: look up (or create) the record, lazily reset it when the window has
expired (strict comparison), increment the count, write the record back, and
deny when `count > limit`. Returns the updated store and `some remaining`
when the request is denied — the middleware then answers with a 429 whose
body interpolates `remaining = int(window - (now - record.time))`. -/
def rateLimitCheck (limit : Nat) (window : ℚ) (store : Store) (ip : String)
    (now : ℚ) : Store × Option ℤ :=
  let record := (storeGet store ip).getD ⟨0, now⟩
  let record := if now - record.time > window then (⟨0, now⟩ : RateRecord) else record
  let record : RateRecord := ⟨record.count + 1, record.time⟩
  let store' := storeSet store ip record
  if record.count > limit then
    (store', some (pyInt (window - (now - record.time))))
  else
    (store', none)

/-- Run the rate limiter over a sequence of request times from a single
caller, collecting the per-request decision (`none` = allowed,
`some r` = denied with retry hint `r`). -/
def runTimes (limit : Nat) (window : ℚ) (ip : String) :
    Store → List ℚ → Store × List (Option ℤ)
  | store, [] => (store, [])
  | store, t :: ts =>
      let p := rateLimitCheck limit window store ip t
      let q := runTimes limit window ip p.1 ts
      (q.1, p.2 :: q.2)

theorem storeGet_storeSet (s : Store) (ip ip' : String) (r : RateRecord) :
    storeGet (storeSet s ip r) ip' = if ip' = ip then some r else storeGet s ip' := by
  unfold storeGet storeSet
  by_cases h : ip' = ip
  · subst h
    simp [List.find?]
  · have h2 : ¬ ip = ip' := fun e => h e.symm
    simp [List.find?, h2, h]

/-! ### JWT model and authentication middleware (`src/core/auth.py`)

The jose library (`jwt.encode` / `jwt.decode` with HS256 and a shared
secret) is modelled at its interface: an encoded token is its claims
payload together with the secret it was signed with; `jwt.decode` succeeds
exactly when the verification secret matches the signing secret, and raises
`ExpiredSignatureError` exactly when the payload carries an integer `exp`
claim strictly smaller than the current time (jose's `_validate_exp` with
zero leeway). -/

/-- A JSON-serialisable claim value. -/
inductive JwtValue where
  | int (n : ℤ)
  | str (s : String)
deriving DecidableEq

/-- A claims payload: a Python dict from claim names to values, as an
association list whose lookup returns the first match. -/
abbrev Claims := List (String × JwtValue)

/-- Python dict lookup `d.get(k)`. -/
def dictGet (d : Claims) (k : String) : Option JwtValue :=
  (d.find? (fun p => p.1 = k)).map (fun p => p.2)

/-- Python dict update as in the literal expression with double-star
unpacking of `data` followed by an explicit entry for `k`: the new binding
overrides any binding of `k` in `d` and leaves all other keys unchanged
(first-match lookup makes the cons observationally equal). -/
def dictSet (d : Claims) (k : String) (v : JwtValue) : Claims :=
  (k, v) :: d

/-- A signed token as produced by `jwt.encode(payload, secret, HS256)`. -/
structure JoseToken where
  payload : Claims
  secret : String

/-- Result of `jwt.decode` inside `AuthMiddleware.dispatch`:
`ok` (returns the payload), `expired` (`ExpiredSignatureError`),
`jwtError` (any other `JWTError`), or `unexpectedError` (any other
exception reaching the catch-all handler). -/
inductive VerifyOutcome where
  | ok (payload : Claims)
  | expired
  | jwtError (msg : String)
  | unexpectedError (msg : String)

/-- Model of `jwt.decode(token, secret, algorithms=[HS256])` evaluated at
current time `now` (whole seconds): signature check, then expiry
validation — expired exactly when `exp < now`. -/
def joseDecode (tok : JoseToken) (secret : String) (now : ℤ) : VerifyOutcome :=
  if tok.secret ≠ secret then .jwtError "Signature verification failed."
  else
    match dictGet tok.payload "exp" with
    | some (.int e) => if e < now then .expired else .ok tok.payload
    | some (.str _) => .jwtError "Expiration Time claim (exp) must be an integer."
    | none => .ok tok.payload

/-- The token issuance helper `create_jwt_token(data, expires_in)`: the
expiry claim is set to issue time plus the validity duration (the source's
default for `expiresIn` is 3600 seconds) and the result is signed with the
module's secret. `now` is the whole-second issue time
(`datetime.now(timezone.utc)` as a unix timestamp). -/
def createJwtToken (data : Claims) (expiresIn : ℤ) (now : ℤ) (secret : String) :
    JoseToken :=
  { payload := dictSet data "exp" (.int (now + expiresIn)), secret := secret }

/-- Outcome of `AuthMiddleware.dispatch` before the downstream stages run:
either the request passes through (with the decoded claims attached to
`request.state.user` when verification ran) or the middleware short-circuits
with a response. -/
inductive AuthOutcome where
  | pass (user : Option Claims)
  | reject (resp : Resp)

/-- `AuthMiddleware.dispatch`, up to the decision to call the next stage.
`authHeader` is `request.headers.get("Authorization")`; `verify` is the
behaviour of `jwt.decode(token, SECRET_KEY, algorithms=[ALGORITHM])` on the
parsed bearer token. Internal paths bypass verification; a missing or falsy
(empty) header, a header that does not split into exactly two
whitespace-separated parts with case-insensitive scheme "bearer", an
expired token, any other JWT error, and any unexpected exception each map
to their own response, mirroring the source's branches. -/
def authDispatch (path : String) (authHeader : Option String)
    (verify : String → VerifyOutcome) : AuthOutcome :=
  if pyStartsWith path "/health" || pyStartsWith path "/metrics" then
    .pass none
  else if authHeader.getD "" = "" then
    .reject ⟨401, Body.detail "Authorization header missing", []⟩
  else
    let parts := pySplit (authHeader.getD "")
    if parts.length ≠ 2 || pyLower (parts.headD "") ≠ "bearer" then
      .reject ⟨401, Body.detail "Invalid Authorization header format", []⟩
    else
      match verify (parts.getD 1 "") with
      | .ok payload => .pass (some payload)
      | .expired => .reject ⟨401, Body.detail "Token expired", []⟩
      | .jwtError e => .reject ⟨401, Body.detail ("Invalid token: " ++ e), []⟩
      | .unexpectedError e => .reject ⟨500, Body.detail ("Unexpected error: " ++ e), []⟩

/-! ### Request logging middleware (`src/core/logging.py`) -/

/-- One structured log line of the request logger, reduced to the fields the
claims are about: the message and the `request_id` field. -/
structure LogEntry where
  message : String
  requestId : String
deriving DecidableEq

/-- `RequestLoggingMiddleware.generate_request_id`: the string form of
`uuid.uuid4()` truncated to its first 8 characters by the Python slice
(character-level). The generated uuid string (always 36 characters) is
passed in as `uuid`. -/
def generateRequestId (uuid : String) : String :=
  ⟨uuid.data.take 8⟩

/-- The correlation id: reuse the inbound `X-Request-ID` header unless it is
missing or falsy (Python `or`), in which case a fresh id is generated. -/
def resolveRequestId (hdr : Option String) (uuid : String) : String :=
  match hdr with
  | some s => if s = "" then generateRequestId uuid else s
  | none => generateRequestId uuid

/-- `RequestLoggingMiddleware.dispatch` on the non-exception path: resolve
the correlation id, attach it to the request state, log the start entry,
run the rest of the pipeline (`inner`), log the completion entry, and set
the `X-Request-ID` response header. Returns the response and the log
entries this middleware emits. -/
def loggingDispatch (req : Req) (uuid : String) (inner : Req → Resp) :
    Resp × List LogEntry :=
  let rid := resolveRequestId (headerGet req.headers "X-Request-ID") uuid
  let resp := inner req
  (setRespHeader resp "X-Request-ID" rid,
   [⟨"Incoming request", rid⟩, ⟨"Request completed", rid⟩])

/-! ### Reverse proxy handler (`src/core/routing.py`) -/

/-- The upstream request actually issued by `client.request(...)` inside
`proxy`: method, target URL (backend base joined with the incoming path),
query parameters, headers, and raw body, all taken from the inbound
request. -/
structure UpRequest where
  method : String
  url : String
  params : List (String × String)
  headers : List (String × String)
  content : String
deriving DecidableEq

def buildUpstreamRequest (req : Req) (pathParam : String) : UpRequest :=
  { method := req.method
    url := BACKEND_SERVICE ++ "/" ++ pathParam
    params := req.query
    headers := req.headers
    content := req.body }

/-- An upstream HTTP response, with `bodyJson` the value `response.json()`
decodes from `bodyText` when the body is JSON. -/
structure UpResponse where
  status : Nat
  contentType : String
  bodyText : String
  bodyJson : Jval

/-- Outcome of the upstream call. httpx raises `httpx.RequestError`
subclasses for network-level failures — `ConnectError` (connection refused),
`TimeoutException` (the 30s client timeout), and DNS resolution failures
(also surfaced as `ConnectError`) — kept as separate constructors so that
their identical handling is provable. httpx does NOT raise
`httpx.HTTPStatusError` unless `raise_for_status()` is called, which
`proxy` never does, so every completed HTTP exchange is `ok`, whatever its
status code. -/
inductive Upstream where
  | ok (r : UpResponse)
  | connectError (msg : String)
  | timeout (msg : String)
  | dnsError (msg : String)

/-- The `proxy` route handler: issue the upstream request and translate the
outcome. A JSON-declared upstream body is returned decoded, any other body
as text; since FastAPI applies the route's default status code to a plain
return value, both come back with status 200 regardless of the upstream
status. A network-level failure raises `HTTPException(503, ...)`, which
Starlette's innermost exception middleware converts to the 503 response
modelled here. The `except httpx.HTTPStatusError` branch of the source is
unreachable (no `raise_for_status()` call) and therefore has no image in
the model. -/
def proxyHandle (req : Req) (pathParam : String)
    (transport : UpRequest → Upstream) : Resp :=
  match transport (buildUpstreamRequest req pathParam) with
  | .ok r =>
      if pyStartsWith r.contentType "application/json" then
        ⟨200, Body.json r.bodyJson, []⟩
      else
        ⟨200, Body.text r.bodyText, []⟩
  | .connectError m => ⟨503, Body.detail ("Backend service unavailable: " ++ m), []⟩
  | .timeout m => ⟨503, Body.detail ("Backend service unavailable: " ++ m), []⟩
  | .dnsError m => ⟨503, Body.detail ("Backend service unavailable: " ++ m), []⟩

/-! ### Middleware registration order (`src/main.py`)

Starlette's `app.add_middleware` inserts the new middleware at index 0 of
`user_middleware`; `build_middleware_stack` then wraps the router with the
reversed list, so the element at index 0 — the one added LAST — is the
outermost middleware and runs FIRST on an inbound request. `main.py` adds
`RequestLoggingMiddleware`, then `RateLimitMiddleware`, then
`AuthMiddleware`, and finally `monitoring.setup_metrics(app)` registers the
metrics-collection middleware via the `app.middleware("http")` decorator
(which also calls `add_middleware`). -/

inductive MW where
  | requestLogging
  | rateLimit
  | auth
  | metricsCollector
deriving DecidableEq

/-- Starlette `add_middleware`: insert at the front of `user_middleware`. -/
def addMiddleware (stack : List MW) (m : MW) : List MW :=
  m :: stack

/-- The `add_middleware` calls of `main.py` in source order (the metrics
middleware is registered last, by `setup_metrics`). -/
def mainAddOrder : List MW :=
  [MW.requestLogging, MW.rateLimit, MW.auth, MW.metricsCollector]

/-- The resulting `user_middleware` list, outermost first: equal to the
inbound execution order. -/
def inboundExecutionOrder : List MW :=
  mainAddOrder.foldl addMiddleware []

/-! ### The composed gateway pipeline

The four user middlewares in their actual inbound execution order
(see `inboundExecutionOrder`): metrics collector (observes and passes
through), then auth, then rate limiter, then request logger, around the
routing application `inner`. Because the auth and rate-limit middlewares
run OUTSIDE the logging middleware, their short-circuit responses return
without the logging middleware ever executing for that request, and
`request.state.request_id` is unset (read as "unknown") while they run.
Returns the response, the updated rate-limit store, and the log entries of
the request logger. -/

def gatewayHandle (limit : Nat) (window now : ℚ) (uuid : String)
    (verify : String → VerifyOutcome) (inner : Req → Resp)
    (store : Store) (req : Req) : Resp × Store × List LogEntry :=
  match authDispatch req.path (headerGet req.headers "Authorization") verify with
  | .reject r => (r, store, [])
  | .pass _user =>
      match rateLimitCheck limit window store (getClientIp req) now with
      | (store', some remaining) =>
          (⟨429,
            Body.detail ("Rate limit exceeded. Try again in " ++ toString remaining ++ "s."),
            []⟩,
           store', [])
      | (store', none) =>
          let p := loggingDispatch req uuid inner
          (p.1, store', p.2)

/-! ### Helper lemmas -/

theorem data_append (s t : String) : (s ++ t).data = s.data ++ t.data := rfl

theorem ne_of_data_take_ne (s t : String) (n : Nat)
    (h : s.data.take n ≠ t.data.take n) : s ≠ t :=
  fun he => h (by rw [he])

theorem generateRequestId_length (uuid : String) (h : uuid.length = 36) :
    (generateRequestId uuid).length = 8 := by
  have hd : uuid.data.length = 36 := h
  show (uuid.data.take 8).length = 8
  rw [List.length_take, hd]
  omega

/-- Concrete request used as the failing input of the ordering claims: a GET
to a proxied path with no Authorization header and no X-Request-ID header. -/
def reqNoAuth : Req :=
  ⟨"GET", "/api/users", [], [], "", "203.0.113.7"⟩

/-- Concrete request used for the forwarding claims. -/
def reqProxied : Req :=
  ⟨"GET", "/api/items", [("x", "1")], [("accept", "text/plain")], "", "203.0.113.3"⟩

/-- Concrete request whose inbound X-Request-ID header is present but empty. -/
def reqEmptyRid : Req :=
  ⟨"GET", "/api/users", [], [("X-Request-ID", "")], "", "203.0.113.5"⟩

/-! ### Claims -/

/-- C1: the claim states the middleware stages execute in the order Request
Logger, Rate Limiter, Token Authenticator, Reverse Proxy, with the
correlation id attached before any other middleware runs. The code violates
this: Starlette's `add_middleware` prepends, so `main.py`'s registration
order produces the inbound execution order metrics collector → Token
Authenticator → Rate Limiter → Request Logger. The authenticator runs
strictly before the logger, so the correlation id is attached only after
auth and rate limiting have already run. -/
theorem C1_middleware_order_reversed :
    inboundExecutionOrder
      = [MW.metricsCollector, MW.auth, MW.rateLimit, MW.requestLogging] ∧
    List.indexOf MW.auth inboundExecutionOrder
      < List.indexOf MW.requestLogging inboundExecutionOrder ∧
    inboundExecutionOrder
      ≠ [MW.requestLogging, MW.rateLimit, MW.auth, MW.metricsCollector] := by
  decide

/-- C2: the claim states the proxied response preserves the upstream status
code and that upstream HTTP error statuses are relayed. The code violates
the status part: the upstream request is built faithfully (method, URL from
the backend base joined with the path, query, headers, raw body), and JSON
bodies come back decoded while other bodies come back as text, but the
handler returns the bare body, so FastAPI replies 200 whatever the upstream
status — here an upstream 404 text response and an upstream 502 JSON
response both come back as 200. -/
theorem C2_upstream_status_not_preserved :
    buildUpstreamRequest reqProxied "items"
      = ⟨"GET", "http://localhost:9000/items", [("x", "1")],
         [("accept", "text/plain")], ""⟩ ∧
    proxyHandle reqProxied "items"
        (fun _ => Upstream.ok ⟨404, "text/plain", "not found", Jval.null⟩)
      = ⟨200, Body.text "not found", []⟩ ∧
    proxyHandle reqProxied "items"
        (fun _ => Upstream.ok
          ⟨502, "application/json", "err", Jval.obj [("error", Jval.str "bad gateway")]⟩)
      = ⟨200, Body.json (Jval.obj [("error", Jval.str "bad gateway")]), []⟩ := by
  refine ⟨?_, ?_, ?_⟩ <;> rfl

/-- C3: the claim states every gateway response, successful or failed,
carries an X-Request-ID header, with the same id in the start and end log
entries. The code violates this for responses produced by the auth (and
rate-limit) middleware: because those stages run outside the request
logger (see C1), a request rejected with 401 — here one with no
Authorization header — produces a response with no X-Request-ID header and
no log entries at all. -/
theorem C3_rejected_response_lacks_request_id :
    gatewayHandle 5 60 0 "aaaabbbb-cccc-dddd-eeee-ffff00001111"
        (fun _ => VerifyOutcome.jwtError "untested")
        (fun r => proxyHandle r "" (fun _ => Upstream.connectError "down"))
        [] reqNoAuth
      = (⟨401, Body.detail "Authorization header missing", []⟩, [], []) ∧
    headerGet (gatewayHandle 5 60 0 "aaaabbbb-cccc-dddd-eeee-ffff00001111"
        (fun _ => VerifyOutcome.jwtError "untested")
        (fun r => proxyHandle r "" (fun _ => Upstream.connectError "down"))
        [] reqNoAuth).1.headers "X-Request-ID"
      = none := by
  exact ⟨rfl, rfl⟩

/-- C7: requests whose path starts with the reserved health or metrics
prefix skip token verification entirely and pass through to the next stage,
whatever the Authorization header (including a missing one) and whatever
the verifier would say. -/
theorem C7_internal_bypass (path : String) (hdr : Option String)
    (verify : String → VerifyOutcome)
    (h : pyStartsWith path "/health" = true ∨ pyStartsWith path "/metrics" = true) :
    authDispatch path hdr verify = AuthOutcome.pass none := by
  unfold authDispatch
  rcases h with h | h <;> simp [h]

/-- C7 witness: a health probe with no Authorization header passes through. -/
theorem C7_internal_bypass_witness :
    authDispatch "/health/live" none (fun _ => VerifyOutcome.jwtError "no token")
      = AuthOutcome.pass none :=
  C7_internal_bypass "/health/live" none (fun _ => VerifyOutcome.jwtError "no token")
    (Or.inl (by decide))

/-- C9: any network-level failure of the upstream call — connection refused,
expiry of the bounded upstream timeout (default 30s), or DNS failure — is an
`httpx.RequestError` and produces a 503 whose detail names the backend
service as unavailable; the timeout and DNS cases are handled identically
to the connection failure. -/
theorem C9_network_failure_503 (req : Req) (p m : String) :
    proxyHandle req p (fun _ => Upstream.connectError m)
      = ⟨503, Body.detail ("Backend service unavailable: " ++ m), []⟩ ∧
    proxyHandle req p (fun _ => Upstream.timeout m)
      = proxyHandle req p (fun _ => Upstream.connectError m) ∧
    proxyHandle req p (fun _ => Upstream.dnsError m)
      = proxyHandle req p (fun _ => Upstream.connectError m) ∧
    upstreamTimeout = 30 := by
  refine ⟨rfl, rfl, rfl, rfl⟩

/-! ### Rate limiter lemmas -/

theorem rateLimitCheck_fresh (limit : Nat) (window now : ℚ) (store : Store)
    (ip : String) (hnone : storeGet store ip = none) (hlim : 1 ≤ limit) :
    rateLimitCheck limit window store ip now
      = (storeSet store ip ⟨1, now⟩, none) := by
  unfold rateLimitCheck
  rw [hnone]
  simp only [Option.getD_none, ite_self]
  rw [if_neg (by show ¬ 0 + 1 > limit; omega)]

theorem rateLimitCheck_in_window (limit : Nat) (window t0 now : ℚ) (c : Nat)
    (store : Store) (ip : String)
    (hrec : storeGet store ip = some ⟨c, t0⟩)
    (hnow : now - t0 ≤ window) (hcount : c + 1 ≤ limit) :
    rateLimitCheck limit window store ip now
      = (storeSet store ip ⟨c + 1, t0⟩, none) := by
  unfold rateLimitCheck
  rw [hrec]
  simp only [Option.getD_some]
  rw [if_neg (not_lt.mpr hnow)]
  rw [if_neg (by show ¬ c + 1 > limit; omega)]

theorem rateLimitCheck_denies (limit : Nat) (window t0 now : ℚ)
    (store : Store) (ip : String)
    (hrec : storeGet store ip = some ⟨limit, t0⟩)
    (hnow : now - t0 ≤ window) :
    rateLimitCheck limit window store ip now
      = (storeSet store ip ⟨limit + 1, t0⟩,
         some (pyInt (window - (now - t0)))) := by
  unfold rateLimitCheck
  rw [hrec]
  simp only [Option.getD_some]
  rw [if_neg (not_lt.mpr hnow)]
  rw [if_pos (by show limit + 1 > limit; omega)]

theorem runTimes_in_window (limit : Nat) (window t0 : ℚ) (ip : String)
    (ts : List ℚ) (c : Nat) (store : Store)
    (hrec : storeGet store ip = some ⟨c, t0⟩)
    (hts : ∀ t ∈ ts, t - t0 ≤ window)
    (hcount : c + ts.length ≤ limit) :
    (runTimes limit window ip store ts).2 = List.replicate ts.length none ∧
    storeGet (runTimes limit window ip store ts).1 ip
      = some ⟨c + ts.length, t0⟩ := by
  induction ts generalizing c store with
  | nil => exact ⟨rfl, by simpa using hrec⟩
  | cons t ts ih =>
      have hstep := rateLimitCheck_in_window limit window t0 t c store ip hrec
        (hts t (List.mem_cons_self t ts)) (by simp at hcount; omega)
      have hrec' : storeGet (rateLimitCheck limit window store ip t).1 ip
          = some ⟨c + 1, t0⟩ := by
        rw [hstep, storeGet_storeSet, if_pos rfl]
      have hts' : ∀ u ∈ ts, u - t0 ≤ window :=
        fun u hu => hts u (List.mem_cons_of_mem t hu)
      have hcount' : (c + 1) + ts.length ≤ limit := by
        simp at hcount; omega
      have hmain := ih (c + 1) (rateLimitCheck limit window store ip t).1 hrec' hts' hcount'
      constructor
      · show (rateLimitCheck limit window store ip t).2
            :: (runTimes limit window ip (rateLimitCheck limit window store ip t).1 ts).2
            = List.replicate (ts.length + 1) none
        rw [hstep, List.replicate_succ]
        exact congrArg (List.cons none) (by simpa [hstep] using hmain.1)
      · show storeGet (runTimes limit window ip (rateLimitCheck limit window store ip t).1 ts).1 ip
            = some ⟨c + (ts.length + 1), t0⟩
        rw [hmain.2]
        congr 2
        omega

theorem runTimes_append (limit : Nat) (window : ℚ) (ip : String)
    (store : Store) (ts1 ts2 : List ℚ) :
    runTimes limit window ip store (ts1 ++ ts2)
      = ((runTimes limit window ip (runTimes limit window ip store ts1).1 ts2).1,
         (runTimes limit window ip store ts1).2
           ++ (runTimes limit window ip (runTimes limit window ip store ts1).1 ts2).2) := by
  induction ts1 generalizing store with
  | nil => simp [runTimes]
  | cons t ts ih => simp [runTimes, ih]

/-- C4 (amended): for a caller with no prior record, the first `limit`
requests of a window are allowed (the boundary comparison being strict, a
request at exactly `window` elapsed still counts into the same window), and
the `limit+1`-th request in the same window is denied with a retry hint
equal to `window` minus the elapsed time since the window start, rounded
down — a value that is nonnegative but, contrary to the claim as stated,
not always positive (see the counterexample). -/
theorem C4_fixed_window_limit (limit : Nat) (window t0 tl : ℚ) (ip : String)
    (mid : List ℚ) (store : Store)
    (hfresh : storeGet store ip = none)
    (hlim : limit = mid.length + 1)
    (hmid : ∀ t ∈ mid, t - t0 ≤ window)
    (htl : tl - t0 ≤ window) :
    (runTimes limit window ip store (t0 :: mid ++ [tl])).2
      = List.replicate limit none ++ [some (pyInt (window - (tl - t0)))] ∧
    pyInt (window - (tl - t0)) = ⌊window - (tl - t0)⌋ ∧
    0 ≤ pyInt (window - (tl - t0)) := by
  have hlim1 : 1 ≤ limit := by omega
  have hq : (0 : ℚ) ≤ window - (tl - t0) := by linarith
  refine ⟨?_, pyInt_eq_floor _ hq, ?_⟩
  · have hstep := rateLimitCheck_fresh limit window t0 store ip hfresh hlim1
    have hrec1 : storeGet (rateLimitCheck limit window store ip t0).1 ip
        = some ⟨1, t0⟩ := by
      rw [hstep, storeGet_storeSet, if_pos rfl]
    have hmidrun := runTimes_in_window limit window t0 ip mid 1
      (rateLimitCheck limit window store ip t0).1 hrec1 hmid (by omega)
    have hreclim : storeGet (runTimes limit window ip
        (rateLimitCheck limit window store ip t0).1 mid).1 ip
        = some ⟨limit, t0⟩ := by
      rw [hmidrun.2]
      congr 2
      omega
    show (rateLimitCheck limit window store ip t0).2
        :: (runTimes limit window ip (rateLimitCheck limit window store ip t0).1
            (mid ++ [tl])).2
        = List.replicate limit none ++ [some (pyInt (window - (tl - t0)))]
    rw [runTimes_append]
    have hlast := rateLimitCheck_denies limit window t0 tl
      (runTimes limit window ip (rateLimitCheck limit window store ip t0).1 mid).1
      ip hreclim htl
    have htail : (runTimes limit window ip
        (runTimes limit window ip (rateLimitCheck limit window store ip t0).1 mid).1
        [tl]).2 = [some (pyInt (window - (tl - t0)))] := by
      show (rateLimitCheck limit window
          (runTimes limit window ip (rateLimitCheck limit window store ip t0).1 mid).1
          ip tl).2 :: [] = _
      rw [hlast]
    have h2 : (rateLimitCheck limit window store ip t0).2 = none := by rw [hstep]
    simp only [runTimes_append]
    rw [h2, hmidrun.1, htail]
    rw [hlim, List.replicate_succ]
    simp
  · rw [pyInt_eq_floor _ hq]
    exact Int.floor_nonneg.mpr hq

/-- C4 witness: with limit 2 and a 60-second window, two requests at 0s and
10s are allowed and a third at 20s is denied with retry hint
down-rounded from 60 − 20 = 40, which is nonnegative. -/
theorem C4_fixed_window_limit_witness :
    (runTimes 2 60 "203.0.113.9" [] ((0 : ℚ) :: [10] ++ [20])).2
      = List.replicate 2 none ++ [some (pyInt (60 - (20 - 0)))] ∧
    pyInt ((60 : ℚ) - (20 - 0)) = ⌊(60 : ℚ) - (20 - 0)⌋ ∧
    0 ≤ pyInt ((60 : ℚ) - (20 - 0)) := by
  exact C4_fixed_window_limit 2 60 0 20 "203.0.113.9" [10] [] rfl rfl
    (by intro t ht; simp at ht; rw [ht]; norm_num) (by norm_num)

/-- C4 counterexample: the claim as stated requires the denial's
`retry_after` to be positive. With limit 1 and a 60-second window, a second
request arriving exactly 60 seconds after the window start is still inside
the window (the reset comparison is strict), is denied, and gets
`retry_after = int(60 − 60) = 0`, which is not positive. -/
theorem C4_retry_after_zero_counterexample :
    (runTimes 1 60 "198.51.100.1" [] [0, 60]).2 = [none, some 0] ∧
    ¬ (0 : ℤ) > 0 := by
  constructor
  · simp only [runTimes, rateLimitCheck, storeGet, storeSet, List.find?, pyInt]
    norm_num
  · omega

/-- C5: a request arriving strictly more than `window` after the caller's
recorded window start is allowed (for any limit ≥ 1) and leaves the
caller's stored record at count 1 with the window start refreshed to the
arrival time; the store entry of every other caller is untouched, and since
the store is only ever modified inside a request's own dispatch, a caller
who stops sending keeps a stale record until that caller's next request. -/
theorem C5_lazy_reset (limit : Nat) (window now w : ℚ) (c : Nat)
    (store : Store) (ip : String)
    (hrec : storeGet store ip = some ⟨c, w⟩)
    (hexp : now - w > window) (hlim : 1 ≤ limit) :
    (rateLimitCheck limit window store ip now).2 = none ∧
    storeGet (rateLimitCheck limit window store ip now).1 ip = some ⟨1, now⟩ ∧
    ∀ ip', ip' ≠ ip →
      storeGet (rateLimitCheck limit window store ip now).1 ip'
        = storeGet store ip' := by
  have hstep : rateLimitCheck limit window store ip now
      = (storeSet store ip ⟨1, now⟩, none) := by
    unfold rateLimitCheck
    rw [hrec]
    simp only [Option.getD_some]
    rw [if_pos hexp]
    rw [if_neg (by show ¬ 0 + 1 > limit; omega)]
  refine ⟨by rw [hstep], by rw [hstep, storeGet_storeSet, if_pos rfl], ?_⟩
  intro ip' hne
  rw [hstep]
  show storeGet (storeSet store ip ⟨1, now⟩) ip' = storeGet store ip'
  rw [storeGet_storeSet, if_neg hne]

/-- C5 witness: a caller whose window (60s) started at time 0 and who has
already used up the limit is allowed again at time 100, with the record
reset to count 1 and window start 100; an unrelated caller's record is
untouched. -/
theorem C5_lazy_reset_witness :
    (rateLimitCheck 5 60 [("198.51.100.7", ⟨5, 0⟩), ("198.51.100.8", ⟨2, 3⟩)]
        "198.51.100.7" 100).2 = none ∧
    storeGet (rateLimitCheck 5 60 [("198.51.100.7", ⟨5, 0⟩), ("198.51.100.8", ⟨2, 3⟩)]
        "198.51.100.7" 100).1 "198.51.100.7" = some ⟨1, 100⟩ ∧
    ∀ ip', ip' ≠ "198.51.100.7" →
      storeGet (rateLimitCheck 5 60 [("198.51.100.7", ⟨5, 0⟩), ("198.51.100.8", ⟨2, 3⟩)]
          "198.51.100.7" 100).1 ip'
        = storeGet [("198.51.100.7", ⟨5, 0⟩), ("198.51.100.8", ⟨2, 3⟩)] ip' := by
  exact C5_lazy_reset 5 60 100 0 5 [("198.51.100.7", ⟨5, 0⟩), ("198.51.100.8", ⟨2, 3⟩)]
    "198.51.100.7" (by simp [storeGet, List.find?]) (by norm_num) (by omega)

/-! ### Auth middleware lemmas -/

theorem authDispatch_missing (path : String) (hdr : Option String)
    (verify : String → VerifyOutcome)
    (hpath : (pyStartsWith path "/health" || pyStartsWith path "/metrics") = false)
    (hemp : hdr.getD "" = "") :
    authDispatch path hdr verify
      = AuthOutcome.reject ⟨401, Body.detail "Authorization header missing", []⟩ := by
  unfold authDispatch
  rw [hpath]
  simp only [Bool.false_eq_true, if_false]
  rw [if_pos hemp]

theorem authDispatch_malformed (path h : String) (verify : String → VerifyOutcome)
    (hpath : (pyStartsWith path "/health" || pyStartsWith path "/metrics") = false)
    (hne : h ≠ "")
    (hbad : (pySplit h).length ≠ 2 ∨ pyLower ((pySplit h).headD "") ≠ "bearer") :
    authDispatch path (some h) verify
      = AuthOutcome.reject ⟨401, Body.detail "Invalid Authorization header format", []⟩ := by
  unfold authDispatch
  rw [hpath]
  simp only [Bool.false_eq_true, if_false, Option.getD_some]
  rw [if_neg hne]
  have hcond : (decide ((pySplit h).length ≠ 2)
      || decide (pyLower ((pySplit h).headD "") ≠ "bearer")) = true := by
    rcases hbad with hb | hb
    · simp [hb]
    · have hb' : pyLower ((pySplit h).head?.getD "") ≠ "bearer" := by simpa using hb
      simp [hb']
  rw [hcond, if_pos rfl]

theorem authDispatch_wellformed (path h scheme tok : String)
    (verify : String → VerifyOutcome)
    (hpath : (pyStartsWith path "/health" || pyStartsWith path "/metrics") = false)
    (hne : h ≠ "")
    (hsplit : pySplit h = [scheme, tok])
    (hlow : pyLower scheme = "bearer") :
    authDispatch path (some h) verify
      = match verify tok with
        | .ok payload => .pass (some payload)
        | .expired => .reject ⟨401, Body.detail "Token expired", []⟩
        | .jwtError e => .reject ⟨401, Body.detail ("Invalid token: " ++ e), []⟩
        | .unexpectedError e =>
            .reject ⟨500, Body.detail ("Unexpected error: " ++ e), []⟩ := by
  unfold authDispatch
  rw [hpath]
  simp only [Bool.false_eq_true, if_false, Option.getD_some]
  rw [if_neg hne]
  simp only [hsplit, List.headD_cons, List.getD_cons_succ, List.getD_cons_zero]
  have hcond : (decide (([scheme, tok] : List String).length ≠ 2)
      || decide (pyLower scheme ≠ "bearer")) = false := by
    simp [hlow]
  rw [hcond]
  simp only [Bool.false_eq_true, if_false]

/-- C6 counterexample: the claim as stated assigns a present-but-empty
`Authorization` header (which is not two whitespace-separated tokens with
scheme Bearer) to the malformed-header outcome, but the code's falsy check
treats it as missing: the response carries the missing-header detail, which
differs from the malformed-header detail. -/
theorem C6_empty_header_counterexample :
    authDispatch "/api/users" (some "") (fun _ => VerifyOutcome.jwtError "x")
      = AuthOutcome.reject ⟨401, Body.detail "Authorization header missing", []⟩ ∧
    ("Authorization header missing" : String)
      ≠ "Invalid Authorization header format" := by
  exact ⟨rfl, by decide⟩

/-- C6 (amended): for every request to a non-internal path, `authenticate`
yields exactly one of five mutually exclusive outcomes with distinct
payloads: 401 with a missing-header reason when no Authorization header is
present or its value is empty; 401 with a malformed-header reason when a
nonempty header is not exactly two whitespace-separated tokens with
case-insensitive scheme Bearer; 401 with an expired reason when the token's
expiry is past; 401 for any other verification failure; and 500 for an
unexpected internal error during verification. -/
theorem C6_auth_taxonomy (path : String) (hdr : Option String)
    (verify : String → VerifyOutcome)
    (hpath : (pyStartsWith path "/health" || pyStartsWith path "/metrics") = false) :
    ((hdr.getD "" = "" →
        authDispatch path hdr verify
          = AuthOutcome.reject ⟨401, Body.detail "Authorization header missing", []⟩) ∧
     (∀ h, hdr = some h → h ≠ "" →
        ((pySplit h).length ≠ 2 ∨ pyLower ((pySplit h).headD "") ≠ "bearer") →
        authDispatch path hdr verify
          = AuthOutcome.reject ⟨401, Body.detail "Invalid Authorization header format", []⟩) ∧
     (∀ h scheme tok, hdr = some h → h ≠ "" →
        pySplit h = [scheme, tok] → pyLower scheme = "bearer" →
        ((verify tok = VerifyOutcome.expired →
            authDispatch path hdr verify
              = AuthOutcome.reject ⟨401, Body.detail "Token expired", []⟩) ∧
         (∀ e, verify tok = VerifyOutcome.jwtError e →
            authDispatch path hdr verify
              = AuthOutcome.reject ⟨401, Body.detail ("Invalid token: " ++ e), []⟩) ∧
         (∀ e, verify tok = VerifyOutcome.unexpectedError e →
            authDispatch path hdr verify
              = AuthOutcome.reject ⟨500, Body.detail ("Unexpected error: " ++ e), []⟩) ∧
         (∀ p, verify tok = VerifyOutcome.ok p →
            authDispatch path hdr verify = AuthOutcome.pass (some p))))) ∧
    (∀ e e' : String,
      ("Authorization header missing" : String) ≠ "Invalid Authorization header format" ∧
      ("Authorization header missing" : String) ≠ "Token expired" ∧
      ("Invalid Authorization header format" : String) ≠ "Token expired" ∧
      "Invalid token: " ++ e ≠ "Authorization header missing" ∧
      "Invalid token: " ++ e ≠ "Invalid Authorization header format" ∧
      "Invalid token: " ++ e ≠ "Token expired" ∧
      "Unexpected error: " ++ e' ≠ "Invalid token: " ++ e ∧
      (500 : Nat) ≠ 401) := by
  refine ⟨⟨?_, ?_, ?_⟩, ?_⟩
  · intro hemp
    exact authDispatch_missing path hdr verify hpath hemp
  · intro h hh hne hbad
    subst hh
    exact authDispatch_malformed path h verify hpath hne hbad
  · intro h scheme tok hh hne hsplit hlow
    subst hh
    have hwf := authDispatch_wellformed path h scheme tok verify hpath hne hsplit hlow
    refine ⟨?_, ?_, ?_, ?_⟩
    · intro hv; rw [hwf, hv]
    · intro e hv; rw [hwf, hv]
    · intro e hv; rw [hwf, hv]
    · intro p hv; rw [hwf, hv]
  · intro e e'
    refine ⟨by decide, by decide, by decide, ?_, ?_, ?_, ?_, by decide⟩
    · apply ne_of_data_take_ne _ _ 1
      rw [data_append, List.take_append_of_le_length (by decide)]
      decide
    · apply ne_of_data_take_ne _ _ 9
      rw [data_append, List.take_append_of_le_length (by decide)]
      decide
    · apply ne_of_data_take_ne _ _ 1
      rw [data_append, List.take_append_of_le_length (by decide)]
      decide
    · apply ne_of_data_take_ne _ _ 1
      rw [data_append, data_append,
        List.take_append_of_le_length (by decide),
        List.take_append_of_le_length (by decide)]
      decide

/-- C6 witness: a well-formed bearer header whose token the verifier
reports expired is rejected with the expired detail. -/
theorem C6_auth_taxonomy_witness :
    authDispatch "/api/users" (some "Bearer abc") (fun _ => VerifyOutcome.expired)
      = AuthOutcome.reject ⟨401, Body.detail "Token expired", []⟩ := by
  have h := C6_auth_taxonomy "/api/users" (some "Bearer abc")
    (fun _ => VerifyOutcome.expired) (by decide)
  exact (h.1.2.2 "Bearer abc" "Bearer" "abc" rfl (by decide) (by decide) (by decide)).1 rfl

/-- C8: a token issued by `create_jwt_token` over an arbitrary claims
payload with validity `d` (the source default being 3600 seconds) carries
an expiry claim equal to issue time plus `d`; presenting it as a bearer
credential while the expiry is in the future passes authentication with the
decoded payload — containing every original claim — attached to the request
context, and presenting the identical token once the expiry is past is
rejected through the expired-token response, not the generic-invalid one. -/
theorem C8_token_roundtrip (data : Claims) (d now t t' : ℤ) (secret : String)
    (hfut : t < now + d) (hpast : now + d < t') :
    dictGet (createJwtToken data d now secret).payload "exp"
      = some (JwtValue.int (now + d)) ∧
    authDispatch "/api/orders" (some "Bearer abc")
        (fun _ => joseDecode (createJwtToken data d now secret) secret t)
      = AuthOutcome.pass (some (createJwtToken data d now secret).payload) ∧
    (∀ k v, k ≠ "exp" → dictGet data k = some v →
        dictGet (createJwtToken data d now secret).payload k = some v) ∧
    authDispatch "/api/orders" (some "Bearer abc")
        (fun _ => joseDecode (createJwtToken data d now secret) secret t')
      = AuthOutcome.reject ⟨401, Body.detail "Token expired", []⟩ := by
  have hexp : dictGet (createJwtToken data d now secret).payload "exp"
      = some (JwtValue.int (now + d)) := by
    simp [createJwtToken, dictSet, dictGet, List.find?]
  have hsecret : (createJwtToken data d now secret).secret = secret := rfl
  have hdec_t : joseDecode (createJwtToken data d now secret) secret t
      = VerifyOutcome.ok (createJwtToken data d now secret).payload := by
    unfold joseDecode
    rw [if_neg (by rw [hsecret]; exact fun hc => hc rfl), hexp]
    show (if now + d < t then VerifyOutcome.expired
        else VerifyOutcome.ok (createJwtToken data d now secret).payload)
      = VerifyOutcome.ok (createJwtToken data d now secret).payload
    rw [if_neg (by omega)]
  have hdec_t' : joseDecode (createJwtToken data d now secret) secret t'
      = VerifyOutcome.expired := by
    unfold joseDecode
    rw [if_neg (by rw [hsecret]; exact fun hc => hc rfl), hexp]
    show (if now + d < t' then VerifyOutcome.expired
        else VerifyOutcome.ok (createJwtToken data d now secret).payload)
      = VerifyOutcome.expired
    rw [if_pos (by omega)]
  have hwf_t := authDispatch_wellformed "/api/orders" "Bearer abc" "Bearer" "abc"
    (fun _ => joseDecode (createJwtToken data d now secret) secret t)
    (by decide) (by decide) (by decide) (by decide)
  have hwf_t' := authDispatch_wellformed "/api/orders" "Bearer abc" "Bearer" "abc"
    (fun _ => joseDecode (createJwtToken data d now secret) secret t')
    (by decide) (by decide) (by decide) (by decide)
  refine ⟨hexp, ?_, ?_, ?_⟩
  · rw [hwf_t, hdec_t]
  · intro k v hk hv
    have hkne : (decide ("exp" = k)) = false :=
      decide_eq_false (fun e => hk e.symm)
    simp only [createJwtToken, dictSet, dictGet, List.find?, hkne]
    simpa [dictGet] using hv
  · rw [hwf_t', hdec_t']

/-- C8 witness: a token for user "u1" issued at time 0 with the default
3600-second validity, checked at t = 10 (accepted with the claims attached)
and t = 4000 (rejected as expired). -/
theorem C8_token_roundtrip_witness :
    dictGet (createJwtToken [("sub", JwtValue.str "u1")] 3600 0 SECRET_KEY).payload "exp"
      = some (JwtValue.int (0 + 3600)) ∧
    authDispatch "/api/orders" (some "Bearer abc")
        (fun _ => joseDecode (createJwtToken [("sub", JwtValue.str "u1")] 3600 0 SECRET_KEY)
          SECRET_KEY 10)
      = AuthOutcome.pass
          (some (createJwtToken [("sub", JwtValue.str "u1")] 3600 0 SECRET_KEY).payload) ∧
    (∀ k v, k ≠ "exp" → dictGet [("sub", JwtValue.str "u1")] k = some v →
        dictGet (createJwtToken [("sub", JwtValue.str "u1")] 3600 0 SECRET_KEY).payload k
          = some v) ∧
    authDispatch "/api/orders" (some "Bearer abc")
        (fun _ => joseDecode (createJwtToken [("sub", JwtValue.str "u1")] 3600 0 SECRET_KEY)
          SECRET_KEY 4000)
      = AuthOutcome.reject ⟨401, Body.detail "Token expired", []⟩ := by
  exact C8_token_roundtrip [("sub", JwtValue.str "u1")] 3600 0 10 4000 SECRET_KEY
    (by omega) (by omega)

/-- C10: when the inbound X-Request-ID header is present but empty, the
request logger treats it as absent: the resolved correlation id is a
freshly generated 8-character id (the uuid4 string, always 36 characters,
truncated to 8), and it is this generated id that is attached to the
request state, referenced by both log entries, and set on the response. -/
theorem C10_empty_request_id (uuid : String) (inner : Req → Resp)
    (h : uuid.length = 36) :
    resolveRequestId (headerGet reqEmptyRid.headers "X-Request-ID") uuid
      = generateRequestId uuid ∧
    (generateRequestId uuid).length = 8 ∧
    (loggingDispatch reqEmptyRid uuid inner).2
      = [⟨"Incoming request", generateRequestId uuid⟩,
         ⟨"Request completed", generateRequestId uuid⟩] ∧
    headerGet (loggingDispatch reqEmptyRid uuid inner).1.headers "X-Request-ID"
      = some (generateRequestId uuid) := by
  have hhdr : headerGet reqEmptyRid.headers "X-Request-ID" = some "" := by decide
  have hres : resolveRequestId (headerGet reqEmptyRid.headers "X-Request-ID") uuid
      = generateRequestId uuid := by
    rw [hhdr]
    simp [resolveRequestId]
  refine ⟨hres, generateRequestId_length uuid h, ?_, ?_⟩
  · show ([⟨"Incoming request", resolveRequestId (headerGet reqEmptyRid.headers "X-Request-ID") uuid⟩,
      ⟨"Request completed", resolveRequestId (headerGet reqEmptyRid.headers "X-Request-ID") uuid⟩]
        : List LogEntry)
      = [⟨"Incoming request", generateRequestId uuid⟩,
         ⟨"Request completed", generateRequestId uuid⟩]
    rw [hres]
  · show headerGet (("X-Request-ID",
        resolveRequestId (headerGet reqEmptyRid.headers "X-Request-ID") uuid)
          :: (inner reqEmptyRid).headers) "X-Request-ID"
      = some (generateRequestId uuid)
    rw [hres]
    simp [headerGet, List.find?]

/-- C10 witness: a concrete 36-character uuid string and a trivial inner
application. -/
theorem C10_empty_request_id_witness :
    resolveRequestId
        (headerGet reqEmptyRid.headers "X-Request-ID")
        "0a1b2c3d-4e5f-4a6b-8c7d-9e0f1a2b3c4d"
      = generateRequestId "0a1b2c3d-4e5f-4a6b-8c7d-9e0f1a2b3c4d" ∧
    (generateRequestId "0a1b2c3d-4e5f-4a6b-8c7d-9e0f1a2b3c4d").length = 8 ∧
    (loggingDispatch reqEmptyRid "0a1b2c3d-4e5f-4a6b-8c7d-9e0f1a2b3c4d"
        (fun _ => ⟨200, Body.text "ok", []⟩)).2
      = [⟨"Incoming request", generateRequestId "0a1b2c3d-4e5f-4a6b-8c7d-9e0f1a2b3c4d"⟩,
         ⟨"Request completed", generateRequestId "0a1b2c3d-4e5f-4a6b-8c7d-9e0f1a2b3c4d"⟩] ∧
    headerGet (loggingDispatch reqEmptyRid "0a1b2c3d-4e5f-4a6b-8c7d-9e0f1a2b3c4d"
        (fun _ => ⟨200, Body.text "ok", []⟩)).1.headers "X-Request-ID"
      = some (generateRequestId "0a1b2c3d-4e5f-4a6b-8c7d-9e0f1a2b3c4d") := by
  exact C10_empty_request_id "0a1b2c3d-4e5f-4a6b-8c7d-9e0f1a2b3c4d"
    (fun _ => ⟨200, Body.text "ok", []⟩) (by decide)

end ApiGateway
